import Mathlib

/-!
Verification of the movie-list acquisition and favorites-reconciliation core of
the movies-explorer client.  The definitions below are a shallow embedding of
the TypeScript sources (`src/hooks/useFavorites.ts` second module = the
authoritative `useMovies`, `src/context/AuthContext.tsx` first module,
`src/utils` for `movieCache`).  Strings are Lean `String`s, JS `Map`s are
association lists with first-match lookup, asynchronous resolution is made
explicit through event traces, and each network side effect is recorded in the
returned value so that "no request is issued" is a provable statement.
-/

set_option autoImplicit false

/-! ## String helpers

JS `String.prototype.includes` / `String.prototype.startsWith`, implemented by
structural recursion on the character list so that concrete evaluation reduces
in the kernel. -/

/-- `listIsPrefixOf pre l` is true when `pre` is a prefix of `l`. -/
def listIsPrefixOf : List Char → List Char → Bool
  | [], _ => true
  | _ :: _, [] => false
  | c :: cs, d :: ds => c = d && listIsPrefixOf cs ds

/-- `listContainsSub sub l` is true when `sub` occurs contiguously in `l`. -/
def listContainsSub (sub : List Char) : List Char → Bool
  | [] => listIsPrefixOf sub []
  | c :: cs => listIsPrefixOf sub (c :: cs) || listContainsSub sub cs

/-- JS `s.includes(sub)`. -/
def strIncludes (s sub : String) : Bool :=
  listContainsSub sub.data s.data

/-- JS `s.startsWith(sub)`. -/
def strStartsWith (s sub : String) : Bool :=
  listIsPrefixOf sub.data s.data

/-- JS truthiness of an optional string: `undefined`, `null` and `""` are
falsy, every other string is truthy. -/
def jsTruthyStr : Option String → Bool
  | none => false
  | some s => !s.isEmpty

/-! ## Data model (`src/types`) -/

/-- `MovieSummary` from `src/types`: the list endpoint's record shape. -/
structure MovieSummary where
  id : String
  title : String
deriving Repr, DecidableEq

/-- `Movie` from `src/types`.  `genres` may hold names or objects in TS; only
the names can matter downstream, so it is embedded as a list of names.  No
claim touches `overview`/`genres`/`runtime`/`duration`/`year`/`releaseDate`;
they are carried for fidelity of the record shape. -/
structure Movie where
  id : String
  title : String
  posterUrl : Option String := none
  rating : Option String := none
  overview : Option String := none
  genres : Option (List String) := none
  genre : Option String := none
  runtime : Option Nat := none
  duration : Option String := none
  year : Option Nat := none
  releaseDate : Option String := none
deriving Repr, DecidableEq

/-! ## Landing-page poster filter (`useFavorites.ts` lines 107-113, 274-298) -/

/-- `isPosterUrlLikelyValid` (`useFavorites.ts` lines 107-113): the cheap
syntactic check.  `!url` rejects `undefined` and the empty string; then the
three placeholder substrings are rejected; finally the URL must start with
`http` and mention a recognized image extension. -/
def isPosterUrlLikelyValid : Option String → Bool
  | none => false
  | some url =>
    if url.isEmpty then false
    else if strIncludes url "placeholder" then false
    else if strIncludes url "no-image" then false
    else if strIncludes url "default" then false
    else strStartsWith url "http" &&
      (strIncludes url ".jpg" || strIncludes url ".png" || strIncludes url ".webp")

/-- The candidate pool of the landing filter (`useFavorites.ts` lines 277-279):
hydrated movies whose `posterUrl` is truthy and passes the syntactic check. -/
def landingCandidates (pool : List Movie) : List Movie :=
  pool.filter (fun m => jsTruthyStr m.posterUrl && isPosterUrlLikelyValid m.posterUrl)

/-- The parallel validation pass (`useFavorites.ts` lines 282-287): each
candidate is paired with the resolved boolean of
`validatePosterImage(movie.posterUrl!, 1500)`; `valid` abstracts that resolved
boolean per URL. -/
def landingValidations (pool : List Movie) (valid : String → Bool) :
    List (Movie × Bool) :=
  (landingCandidates pool).map (fun movie => (movie, valid (movie.posterUrl.getD "")))

/-- `validatedMovies` (`useFavorites.ts` lines 290-293): keep the pairs whose
validation resolved true, project the movie back out, take the first 15. -/
def landingDisplayed (pool : List Movie) (valid : String → Bool) : List Movie :=
  (((landingValidations pool valid).filter (fun v => v.2)).map (fun v => v.1)).take 15

/-- The combined per-movie predicate the landing filter amounts to: truthy
poster URL, syntactic pass, and a true validation outcome. -/
def passesLandingFilter (valid : String → Bool) (m : Movie) : Bool :=
  jsTruthyStr m.posterUrl && isPosterUrlLikelyValid m.posterUrl &&
    valid (m.posterUrl.getD "")

/-- Outcome of the landing branch of `fetchMovies`: the published movie list
together with the number of list-endpoint requests the branch performed. -/
structure LandingFetchResult where
  movies : List Movie
  listRequests : Nat
deriving Repr, DecidableEq

/-- Landing branch of `fetchMovies` (`useFavorites.ts` lines 199-298) from the
point where the oversized pool of 30 summaries has finished hydration: the
function body performs exactly one `GET /movies` request and contains no loop
or retry around it, so the request count is the constant 1; the published list
is the validated-and-truncated pool. -/
def fetchMoviesLanding (pool : List Movie) (valid : String → Bool) :
    LandingFetchResult :=
  { movies := landingDisplayed pool valid, listRequests := 1 }

/-! ## Poster validator (`useFavorites.ts` lines 116-144)

`validatePosterImage` consults `posterValidationCache` synchronously; on a miss
it creates a fresh `Image`, installs `onload`/`onerror` handlers and a
`setTimeout`, and resolves with the first of those three events, writing the
outcome into the cache at that moment.  The embedding is a small event system:
a `call` event is one invocation of `validatePosterImage`, a `resolve` event is
the first-firing callback of the image load that the call started.  `loads`
records every underlying image-load attempt (`new Image(); img.src = url`);
`results` records the boolean each caller's promise resolved with.

The handlers outlive the promise: when the `setTimeout` fires first, the
settled promise has resolved `true` and cached `true`, but `img.onload` /
`img.onerror` stay installed and the image's eventual single `load`/`error`
event still runs — `clearTimeout` is then a no-op and `resolve` cannot
re-settle the promise, but `posterValidationCache.set(url, ...)` executes and
can flip the cached boolean (in particular `true` to `false` on a late
error), changing what later callers are served.  A `lateImage` event models
that late firing.  When the promise settles through `onload`/`onerror`
instead, the handler clears the timeout and the image fires no second event,
so no late write can follow. -/

/-- First-match lookup in an association list, i.e. JS `Map.get`. -/
def lookupAssoc (cache : List (String × Bool)) (url : String) : Option Bool :=
  (cache.find? (fun e => e.1 = url)).map (fun e => e.2)

/-- JS `Map.set`: one entry per key, the value replaced in place.  Iteration
order is never observed, so the updated entry may sit in front. -/
def setAssoc (cache : List (String × Bool)) (url : String) (b : Bool) :
    List (String × Bool) :=
  (url, b) :: cache.filter (fun e => e.1 ≠ url)

/-- Which of `onload` / `onerror` / the `setTimeout` fired first for a load. -/
inductive LoadOutcome where
  | onload : LoadOutcome
  | onerror : LoadOutcome
  | timeout : LoadOutcome
deriving Repr, DecidableEq

/-- The boolean the corresponding handler caches and resolves with
(`useFavorites.ts` lines 126-141): `onload` and the timeout give `true`,
`onerror` gives `false`. -/
def outcomeBool : LoadOutcome → Bool
  | .onload => true
  | .onerror => false
  | .timeout => true

/-- State of the validator: the module-level `posterValidationCache`, the
in-flight (unresolved) calls, the timeout-settled loads whose image handlers
are still installed and may yet fire, the trace of image-load attempts
issued, and the per-caller resolved booleans. -/
structure ValidatorState where
  cache : List (String × Bool)
  pending : List (Nat × String)
  timedOut : List (Nat × String)
  loads : List String
  results : List (Nat × Bool)
deriving Repr, DecidableEq

/-- The validator before any call: empty cache, nothing in flight. -/
def initValidator : ValidatorState :=
  { cache := [], pending := [], timedOut := [], loads := [], results := [] }

/-- Validator events: a `validatePosterImage` invocation, the settling of a
previously started load, or — for a load whose promise the timeout already
settled — the image's late `load` (`isLoad = true`) or `error`
(`isLoad = false`) event finally firing. -/
inductive VEvent where
  | call (id : Nat) (url : String) : VEvent
  | resolve (id : Nat) (outcome : LoadOutcome) : VEvent
  | lateImage (id : Nat) (isLoad : Bool) : VEvent
deriving Repr, DecidableEq

/-- One step of the validator (`useFavorites.ts` lines 119-144).  A call first
checks the cache and resolves immediately on a hit, issuing no load; on a miss
it issues a fresh image load and becomes pending.  A resolution writes the
outcome's boolean into the cache and resolves that caller's promise with it;
a timeout settle additionally leaves the load's image handlers armed.  A late
image event for a timeout-settled load re-runs `clearTimeout` (a no-op) and
`posterValidationCache.set` — overwriting the cached boolean with the image's
actual outcome — while the already-settled promise keeps its resolved value;
the image fires at most once, so the load then leaves `timedOut`. -/
def vstep (st : ValidatorState) : VEvent → ValidatorState
  | .call id url =>
    match lookupAssoc st.cache url with
    | some b => { st with results := st.results ++ [(id, b)] }
    | none =>
      { st with pending := st.pending ++ [(id, url)], loads := st.loads ++ [url] }
  | .resolve id outcome =>
    match st.pending.find? (fun e => e.1 = id) with
    | some e =>
      { st with
          cache := setAssoc st.cache e.2 (outcomeBool outcome),
          pending := st.pending.filter (fun p => p.1 ≠ id),
          timedOut :=
            if outcome = LoadOutcome.timeout then st.timedOut ++ [(id, e.2)]
            else st.timedOut,
          results := st.results ++ [(id, outcomeBool outcome)] }
    | none => st
  | .lateImage id isLoad =>
    match st.timedOut.find? (fun e => e.1 = id) with
    | some e =>
      { st with
          cache := setAssoc st.cache e.2 isLoad,
          timedOut := st.timedOut.filter (fun p => p.1 ≠ id) }
    | none => st

/-- Run a sequence of validator events. -/
def vrun (st : ValidatorState) (events : List VEvent) : ValidatorState :=
  events.foldl vstep st

/-- Which event settles a load whose image would fire `load`/`error` at a given
time: `imgEvent = some (t, isLoad)` means the image fires at millisecond `t`
(`isLoad = true` for `load`, `false` for `error`), `none` means it never fires.
The `setTimeout` fires at `timeoutMs`, so the image event wins only when it is
strictly earlier. -/
def settleOutcome (imgEvent : Option (Nat × Bool)) (timeoutMs : Nat) : LoadOutcome :=
  match imgEvent with
  | none => .timeout
  | some (t, isLoad) =>
    if t < timeoutMs then (if isLoad then .onload else .onerror) else .timeout

/-- The timeout the landing filter pass passes to `validatePosterImage`
(`useFavorites.ts` line 285: `validatePosterImage(movie.posterUrl!, 1500)`). -/
def landingPosterTimeoutMs : Nat := 1500

/-- The default `timeoutMs` parameter of `validatePosterImage`
(`useFavorites.ts` line 119). -/
def defaultPosterTimeoutMs : Nat := 2000

/-! ## Detail cache (`src/utils` `movieCache`, `useFavorites.ts` lines 179-196) -/

/-- The module-level `movieCache : Map<string, Movie>`, as an association list
with first-match lookup. -/
def cacheLookup (cache : List (String × Movie)) (movieId : String) : Option Movie :=
  (cache.find? (fun e => e.1 = movieId)).map (fun e => e.2)

/-- Result of one `fetchMovieDetails` call: the returned movie (or `null`),
the cache afterwards, and how many detail-endpoint requests the call made. -/
structure DetailFetchResult where
  result : Option Movie
  cache : List (String × Movie)
  networkRequests : Nat
deriving Repr, DecidableEq

/-- `fetchMovieDetails` (`useFavorites.ts` lines 179-196).  `net` is the
detail endpoint's behavior for this call: `some movie` for a 2xx response with
that body, `none` for `!res.ok` or a thrown fetch error (both return `null`
without caching). -/
def fetchMovieDetails (cache : List (String × Movie)) (net : Option Movie)
    (movieId : String) : DetailFetchResult :=
  match cacheLookup cache movieId with
  | some m => { result := some m, cache := cache, networkRequests := 0 }
  | none =>
    match net with
    | some movie =>
      { result := some movie, cache := (movieId, movie) :: cache, networkRequests := 1 }
    | none => { result := none, cache := cache, networkRequests := 1 }

/-- Run a sequence of detail requests (each with its own endpoint behavior),
threading the cache. -/
def runDetailRequests (cache : List (String × Movie))
    (reqs : List (String × Option Movie)) : List (String × Movie) :=
  reqs.foldl (fun c r => (fetchMovieDetails c r.2 r.1).cache) cache

/-! ## Auth context and favorites (`src/context/AuthContext.tsx`) -/

/-- The metadata the reconciliation looks up per movie id
(`useFavorites.ts` lines 32-39).  The numeric rating produced by `parseFloat`
is opaque to every claim, so its numeric type is immaterial and embedded as
`Nat`. -/
structure MovieData where
  title : String
  poster : Option String
  rating : Option Nat
deriving Repr, DecidableEq

/-- A cloud favorite record (`Favorite` from `src/lib/appwrite`): the
store-assigned document id `$id` plus the favorite fields. -/
structure Favorite where
  docId : String
  userId : String
  movieId : String
  title : String
  poster : Option String
  rating : Option Nat
deriving Repr, DecidableEq

/-- The `AuthProvider` state: the current user (by id), the in-memory
`cloudFavorites` and `localFavorites` arrays, and the persisted
`localStorage['movieFavorites']` array (`storage`). -/
structure AuthState where
  user : Option String
  cloudFavorites : List Favorite
  localFavorites : List String
  storage : List String
deriving Repr, DecidableEq

/-- `addToLocalFavorites` (`AuthContext.tsx` lines 166-173): if the id is
already present the previous array is returned unchanged and
`saveLocalFavorites` is not called; otherwise the id is appended and the new
array is written through to storage.  JS `includes` is list membership. -/
def addToLocalFavorites (st : AuthState) (movieId : String) : AuthState :=
  if movieId ∈ st.localFavorites then st
  else
    { st with
        localFavorites := st.localFavorites ++ [movieId],
        storage := st.localFavorites ++ [movieId] }

/-- `removeFromLocalFavorites` (`AuthContext.tsx` lines 175-181): filter the id
out and write the new array through to storage. -/
def removeFromLocalFavorites (st : AuthState) (movieId : String) : AuthState :=
  { st with
      localFavorites := st.localFavorites.filter (fun id => id ≠ movieId),
      storage := st.localFavorites.filter (fun id => id ≠ movieId) }

/-- `addToCloudFavorites` (`AuthContext.tsx` lines 129-144): a no-op without a
user; otherwise `favoritesService.addFavorite` is attempted — `addResult`
abstracts the call's outcome (`some fav` on success, `none` when it returns
null or throws, which is swallowed) — and on success the favorite is prepended
to the in-memory cloud set.  Local favorites and storage are untouched. -/
def addToCloudFavorites (st : AuthState) (addResult : Option Favorite) : AuthState :=
  match st.user with
  | none => st
  | some _ =>
    match addResult with
    | some fav => { st with cloudFavorites := fav :: st.cloudFavorites }
    | none => st

/-- `logout` (`AuthContext.tsx` lines 115-119): after the provider's logout
call, the user is cleared and the in-memory cloud set is emptied; neither the
in-memory local favorites nor storage is touched. -/
def logout (st : AuthState) : AuthState :=
  { st with user := none, cloudFavorites := [] }

/-- The operations `syncLocalToCloud` performs, in order: the local clear
(`setLocalFavorites([]); saveLocalFavorites([])`) and each cloud add it
issues. -/
inductive SyncOp where
  | clearLocal : SyncOp
  | cloudAdd (movieId : String) : SyncOp
deriving Repr, DecidableEq

/-- The loop body of `syncLocalToCloud` (`AuthContext.tsx` lines 211-216): a
cloud add is issued only when the movie-data lookup has the id; otherwise the
id is silently dropped. -/
def syncStep (movieData : String → Option MovieData)
    (addResult : String → Option Favorite)
    (acc : AuthState × List SyncOp) (movieId : String) : AuthState × List SyncOp :=
  match movieData movieId with
  | some _ =>
    (addToCloudFavorites acc.1 (addResult movieId), acc.2 ++ [SyncOp.cloudAdd movieId])
  | none => acc

/-- `syncLocalToCloud` (`AuthContext.tsx` lines 192-217): a no-op without a
user; otherwise the local set is snapshotted and cleared (memory and storage)
first, then — when the snapshot was non-empty — the ids not already among the
cloud set's movie ids are pushed sequentially through the lookup-guarded cloud
add.  Returns the final state and the ordered trace of operations. -/
def syncLocalToCloud (st : AuthState) (movieData : String → Option MovieData)
    (addResult : String → Option Favorite) : AuthState × List SyncOp :=
  match st.user with
  | none => (st, [])
  | some _ =>
    let localToSync := st.localFavorites
    let cleared := { st with localFavorites := ([] : List String), storage := ([] : List String) }
    if localToSync = [] then (cleared, [SyncOp.clearLocal])
    else
      let cloudIds : List String := st.cloudFavorites.map (fun f => f.movieId)
      let toSync : List String := localToSync.filter (fun id => decide (id ∉ cloudIds))
      toSync.foldl (syncStep movieData addResult) (cleared, [SyncOp.clearLocal])

/-! ## Guest favorite toggle (`useFavorites.ts` first module, lines 45-87) -/

/-- The `useFavorites` hook state relevant to the guest flow: the auth state
plus the guest-prompt flag and the pending favorite action (by movie id). -/
structure GuestUIState where
  auth : AuthState
  guestPromptOpen : Bool
  pendingFavoriteAction : Option String
deriving Repr, DecidableEq

/-- The guest (`user = null`) branch of `toggleFavorite` (`useFavorites.ts`
lines 45-68): an id currently in the local favorites is removed; an id not in
them is NOT added — instead the action is recorded as pending and the guest
prompt is opened. -/
def toggleFavoriteGuest (st : GuestUIState) (movieId : String) : GuestUIState :=
  if movieId ∈ st.auth.localFavorites then
    { st with auth := removeFromLocalFavorites st.auth movieId }
  else
    { st with pendingFavoriteAction := some movieId, guestPromptOpen := true }

/-- `handleContinueAsGuest` (`useFavorites.ts` lines 82-87): if an action is
pending, perform the local add; in both cases clear the pending action (the
prompt flag is closed separately by `closeGuestPrompt`). -/
def handleContinueAsGuest (st : GuestUIState) : GuestUIState :=
  match st.pendingFavoriteAction with
  | some movieId =>
    { st with auth := addToLocalFavorites st.auth movieId, pendingFavoriteAction := none }
  | none => { st with pendingFavoriteAction := none }

/-! ## Pagination state (`useFavorites.ts` lines 216-222) -/

/-- The list-endpoint response as `fetchMovies` reads it: the summaries array
and the possible total/pages fields.  A field is `none` when absent from the
JSON; `some 0` and `none` are both JS-falsy. -/
structure MoviesApiResponse where
  data : List MovieSummary
  totalPages : Option Nat
  pages : Option Nat
  total : Option Nat
  totalResults : Option Nat
  totalCount : Option Nat
  count : Option Nat
deriving Repr, DecidableEq

/-- JS `a || b` on an optional number: `a` when present and non-zero, else
`b`. -/
def jsOrNat (a : Option Nat) (b : Nat) : Nat :=
  match a with
  | some n => if n = 0 then b else n
  | none => b

/-- JS truthiness of an optional number. -/
def truthyNat : Option Nat → Bool
  | some n => decide (n ≠ 0)
  | none => false

/-- `setTotalPages(data.totalPages || data.pages || 1)`
(`useFavorites.ts` line 218). -/
def paginationTotalPages (r : MoviesApiResponse) : Nat :=
  jsOrNat r.totalPages (jsOrNat r.pages 1)

/-- `totalCount` (`useFavorites.ts` line 220):
`data.total || data.totalResults || data.totalCount || data.count ||
(data.data?.length * (data.totalPages || 1)) || 0`. -/
def paginationTotalResults (r : MoviesApiResponse) : Nat :=
  jsOrNat r.total (jsOrNat r.totalResults (jsOrNat r.totalCount (jsOrNat r.count
    (jsOrNat (some (r.data.length * jsOrNat r.totalPages 1)) 0))))

/-! ## Debounced search (`useFavorites.ts` lines 345-364)

The search effect re-runs when the search input changes; React first runs the
previous effect's cleanup (`clearTimeout`, cancelling any pending fetch timer),
then the body, which — the change-detection refs having seen a real change —
schedules a 300ms timer carrying the current input.  The genre is held fixed
and a valid token is assumed (the effect returns early otherwise). -/

/-- Debounce state: the `prevSearch` change-detection ref, the pending timer's
captured query (if a timer is armed), and the trace of `fetchMovies` calls
issued, by their `search` argument. -/
structure DebounceState where
  prevSearch : String
  pendingFetch : Option String
  fetchCalls : List String
deriving Repr, DecidableEq

/-- One search-input change: if the value did not actually change, the effect
does not re-run and nothing happens; otherwise the pending timer (if any) is
cancelled by the cleanup and a new timer capturing the new input is armed. -/
def searchInputChange (st : DebounceState) (q : String) : DebounceState :=
  if q = st.prevSearch then st
  else { prevSearch := q, pendingFetch := some q, fetchCalls := st.fetchCalls }

/-- The armed timer fires: the captured query becomes a `fetchMovies` call. -/
def debounceTimerFire (st : DebounceState) : DebounceState :=
  match st.pendingFetch with
  | some q => { st with pendingFetch := none, fetchCalls := st.fetchCalls ++ [q] }
  | none => st

/-- Apply a sequence of input changes, all within the debounce window (no
timer fires in between). -/
def applySearchChanges (st : DebounceState) (qs : List String) : DebounceState :=
  qs.foldl searchInputChange st

/-- Each change in the sequence differs from the previous settled value (the
first from the given one, each later one from its predecessor), so each change
re-runs the effect. -/
def changesAllFresh : String → List String → Bool
  | _, [] => true
  | prev, q :: qs => (q ≠ prev : Bool) && changesAllFresh q qs

/-! ## General list lemmas used by the landing-filter claims -/

lemma filter_map_pair {α : Type} (g : α → Bool) (l : List α) :
    ((l.map (fun m => (m, g m))).filter (fun v => v.2)).map (fun v => v.1)
      = l.filter g := by
  induction l with
  | nil => rfl
  | cons a t ih =>
    by_cases h : g a <;> simp [h, ih]

lemma filter_filter_and {α : Type} (p q : α → Bool) (l : List α) :
    (l.filter p).filter q = l.filter (fun a => p a && q a) := by
  induction l with
  | nil => rfl
  | cons a t ih =>
    by_cases hp : p a <;> by_cases hq : q a <;> simp [hp, hq, ih]

/-- The landing filter is the truncation of one combined filter over the
hydrated pool. -/
lemma landingDisplayed_eq_filter_take (pool : List Movie) (valid : String → Bool) :
    landingDisplayed pool valid
      = (pool.filter (passesLandingFilter valid)).take 15 := by
  unfold landingDisplayed landingValidations landingCandidates
  rw [filter_map_pair, filter_filter_and]
  have hpred : (fun a : Movie =>
      (jsTruthyStr a.posterUrl && isPosterUrlLikelyValid a.posterUrl) &&
        valid (a.posterUrl.getD "")) = passesLandingFilter valid := by
    funext m
    simp [passesLandingFilter, Bool.and_assoc]
  rw [hpred]

/-- Claim C1: for a landing fetch whose hydrated pool has arrived, the
displayed movie list is exactly the pool's candidates that pass the syntactic
poster check and whose poster validated true, in original relative order,
truncated to the first 15; when fewer than 15 validate, exactly that many are
displayed; and the branch performed exactly one list request (no re-fetch). -/
theorem landing_filter_displays_validated (pool : List Movie) (valid : String → Bool)
    (_hpool : pool.length = 30) :
    (fetchMoviesLanding pool valid).movies
        = (pool.filter (passesLandingFilter valid)).take 15
    ∧ List.Sublist (fetchMoviesLanding pool valid).movies pool
    ∧ (fetchMoviesLanding pool valid).movies.length
        = min (pool.filter (passesLandingFilter valid)).length 15
    ∧ ((pool.filter (passesLandingFilter valid)).length < 15 →
        (fetchMoviesLanding pool valid).movies.length
          = (pool.filter (passesLandingFilter valid)).length)
    ∧ (fetchMoviesLanding pool valid).listRequests = 1 := by
  have hmv : (fetchMoviesLanding pool valid).movies
      = (pool.filter (passesLandingFilter valid)).take 15 :=
    landingDisplayed_eq_filter_take pool valid
  refine ⟨hmv, ?_, ?_, ?_, rfl⟩
  · rw [hmv]
    exact ((pool.filter (passesLandingFilter valid)).take_sublist 15).trans
      (pool.filter_sublist)
  · rw [hmv, List.length_take, Nat.min_comm]
  · intro hK
    rw [hmv, List.length_take]
    omega

/-- Witness for C1 at a concrete pool of 30 summaries, none of which has a
poster URL, so 0 < 15 candidates validate and 0 movies are displayed. -/
theorem landing_filter_displays_validated_witness :
    (List.replicate 30 ({ id := "a", title := "b" } : Movie)).length = 30
    ∧ ((fetchMoviesLanding (List.replicate 30 ({ id := "a", title := "b" } : Movie))
          (fun _ => true)).movies
        = ((List.replicate 30 ({ id := "a", title := "b" } : Movie)).filter
            (passesLandingFilter (fun _ => true))).take 15
      ∧ List.Sublist
          (fetchMoviesLanding (List.replicate 30 ({ id := "a", title := "b" } : Movie))
            (fun _ => true)).movies
          (List.replicate 30 ({ id := "a", title := "b" } : Movie))
      ∧ (fetchMoviesLanding (List.replicate 30 ({ id := "a", title := "b" } : Movie))
            (fun _ => true)).movies.length
          = min ((List.replicate 30 ({ id := "a", title := "b" } : Movie)).filter
              (passesLandingFilter (fun _ => true))).length 15
      ∧ (((List.replicate 30 ({ id := "a", title := "b" } : Movie)).filter
            (passesLandingFilter (fun _ => true))).length < 15 →
          (fetchMoviesLanding (List.replicate 30 ({ id := "a", title := "b" } : Movie))
              (fun _ => true)).movies.length
            = ((List.replicate 30 ({ id := "a", title := "b" } : Movie)).filter
                (passesLandingFilter (fun _ => true))).length)
      ∧ (fetchMoviesLanding (List.replicate 30 ({ id := "a", title := "b" } : Movie))
            (fun _ => true)).listRequests = 1) :=
  ⟨by decide,
    landing_filter_displays_validated
      (List.replicate 30 ({ id := "a", title := "b" } : Movie))
      (fun _ => true) (by decide)⟩

/-- Claim C9: logging out clears the in-memory cloud favorites (and the user)
and leaves the in-memory local favorites and the persisted storage array
untouched. -/
theorem logout_clears_cloud_keeps_local (st : AuthState) :
    (logout st).user = none
    ∧ (logout st).cloudFavorites = []
    ∧ (logout st).localFavorites = st.localFavorites
    ∧ (logout st).storage = st.storage :=
  ⟨rfl, rfl, rfl, rfl⟩

/-- Claim C10: adding an id already in the local favorites is a no-op on both
memory and storage; local adds and removes keep the list duplicate-free; and
every mutating add or remove writes the resulting list through to storage in
the same step. -/
theorem local_favorites_invariants (st : AuthState) (movieId : String)
    (hnd : st.localFavorites.Nodup) (hsync : st.storage = st.localFavorites) :
    (movieId ∈ st.localFavorites → addToLocalFavorites st movieId = st)
    ∧ (addToLocalFavorites st movieId).localFavorites.Nodup
    ∧ (addToLocalFavorites st movieId).storage
        = (addToLocalFavorites st movieId).localFavorites
    ∧ (removeFromLocalFavorites st movieId).localFavorites.Nodup
    ∧ (removeFromLocalFavorites st movieId).storage
        = (removeFromLocalFavorites st movieId).localFavorites := by
  refine ⟨?_, ?_, ?_, ?_, ?_⟩
  · intro h
    simp [addToLocalFavorites, h]
  · by_cases h : movieId ∈ st.localFavorites
    · simpa [addToLocalFavorites, h] using hnd
    · simp [addToLocalFavorites, h, List.nodup_append, hnd]
  · by_cases h : movieId ∈ st.localFavorites
    · simp [addToLocalFavorites, h, hsync]
    · simp [addToLocalFavorites, h]
  · exact hnd.filter _
  · rfl

/-- Witness for C10 at a concrete guest state holding the single favorite
`"m1"`, toggling the already-present id `"m1"`. -/
theorem local_favorites_invariants_witness :
    ("m1" ∈ (⟨none, [], ["m1"], ["m1"]⟩ : AuthState).localFavorites →
        addToLocalFavorites (⟨none, [], ["m1"], ["m1"]⟩ : AuthState) "m1"
          = (⟨none, [], ["m1"], ["m1"]⟩ : AuthState))
    ∧ (addToLocalFavorites (⟨none, [], ["m1"], ["m1"]⟩ : AuthState) "m1").localFavorites.Nodup
    ∧ (addToLocalFavorites (⟨none, [], ["m1"], ["m1"]⟩ : AuthState) "m1").storage
        = (addToLocalFavorites (⟨none, [], ["m1"], ["m1"]⟩ : AuthState) "m1").localFavorites
    ∧ (removeFromLocalFavorites (⟨none, [], ["m1"], ["m1"]⟩ : AuthState) "m1").localFavorites.Nodup
    ∧ (removeFromLocalFavorites (⟨none, [], ["m1"], ["m1"]⟩ : AuthState) "m1").storage
        = (removeFromLocalFavorites (⟨none, [], ["m1"], ["m1"]⟩ : AuthState) "m1").localFavorites :=
  local_favorites_invariants (⟨none, [], ["m1"], ["m1"]⟩ : AuthState) "m1"
    (by decide) (by decide)

/-- Counterexample to claim C7 as stated: in the guest state whose local
favorites are exactly `["m1"]`, toggling `"m1"` twice does NOT return local
membership to its original state — the first toggle removes it and the second
only opens the guest prompt, so the id stays removed. -/
theorem guest_toggle_twice_counterexample :
    "m1" ∈ (⟨⟨none, [], ["m1"], ["m1"]⟩, false, none⟩ : GuestUIState).auth.localFavorites
    ∧ "m1" ∉ (toggleFavoriteGuest
        (toggleFavoriteGuest (⟨⟨none, [], ["m1"], ["m1"]⟩, false, none⟩ : GuestUIState) "m1")
        "m1").auth.localFavorites := by
  decide

/-- Claim C7 (amended): in Guest state, toggling an id that is not a favorite
only opens the guest prompt, so two toggles leave the state's favorites
unchanged; for an id that is a favorite, two toggles leave it removed (the
second toggle opens the prompt instead of re-adding), and membership is
restored once the prompt's continue-as-guest action applies the pending add.
Persisted storage equals the in-memory list after every such sequence. -/
theorem guest_toggle_roundtrip (st : GuestUIState) (movieId : String)
    (hsync : st.auth.storage = st.auth.localFavorites) :
    (movieId ∉ st.auth.localFavorites →
      (toggleFavoriteGuest (toggleFavoriteGuest st movieId) movieId).auth = st.auth)
    ∧ (movieId ∈ st.auth.localFavorites →
        movieId ∉ (toggleFavoriteGuest (toggleFavoriteGuest st movieId) movieId).auth.localFavorites
        ∧ movieId ∈ (handleContinueAsGuest
            (toggleFavoriteGuest (toggleFavoriteGuest st movieId) movieId)).auth.localFavorites
        ∧ (handleContinueAsGuest
            (toggleFavoriteGuest (toggleFavoriteGuest st movieId) movieId)).auth.storage
          = (handleContinueAsGuest
              (toggleFavoriteGuest (toggleFavoriteGuest st movieId) movieId)).auth.localFavorites)
    ∧ (toggleFavoriteGuest (toggleFavoriteGuest st movieId) movieId).auth.storage
        = (toggleFavoriteGuest (toggleFavoriteGuest st movieId) movieId).auth.localFavorites := by
  by_cases h : movieId ∈ st.auth.localFavorites
  · have hrm : movieId ∉ st.auth.localFavorites.filter (fun id => id ≠ movieId) := by
      simp [List.mem_filter]
    refine ⟨fun hcon => absurd h hcon, fun _ => ⟨?_, ?_, ?_⟩, ?_⟩
    · simp [toggleFavoriteGuest, removeFromLocalFavorites, h, hrm]
    · simp [toggleFavoriteGuest, removeFromLocalFavorites, h, hrm,
        handleContinueAsGuest, addToLocalFavorites]
    · simp [toggleFavoriteGuest, removeFromLocalFavorites, h, hrm,
        handleContinueAsGuest, addToLocalFavorites]
    · simp [toggleFavoriteGuest, removeFromLocalFavorites, h, hrm]
  · refine ⟨fun _ => ?_, fun hcon => absurd hcon h, ?_⟩
    · simp [toggleFavoriteGuest, h]
    · simp [toggleFavoriteGuest, h, hsync]

/-- Witness for C7 (amended) at the guest state holding exactly `["m1"]`,
toggling `"m1"`. -/
theorem guest_toggle_roundtrip_witness :
    ("m1" ∉ (⟨⟨none, [], ["m1"], ["m1"]⟩, false, none⟩ : GuestUIState).auth.localFavorites →
      (toggleFavoriteGuest (toggleFavoriteGuest
          (⟨⟨none, [], ["m1"], ["m1"]⟩, false, none⟩ : GuestUIState) "m1") "m1").auth
        = (⟨⟨none, [], ["m1"], ["m1"]⟩, false, none⟩ : GuestUIState).auth)
    ∧ ("m1" ∈ (⟨⟨none, [], ["m1"], ["m1"]⟩, false, none⟩ : GuestUIState).auth.localFavorites →
        "m1" ∉ (toggleFavoriteGuest (toggleFavoriteGuest
            (⟨⟨none, [], ["m1"], ["m1"]⟩, false, none⟩ : GuestUIState) "m1") "m1").auth.localFavorites
        ∧ "m1" ∈ (handleContinueAsGuest (toggleFavoriteGuest (toggleFavoriteGuest
            (⟨⟨none, [], ["m1"], ["m1"]⟩, false, none⟩ : GuestUIState) "m1") "m1")).auth.localFavorites
        ∧ (handleContinueAsGuest (toggleFavoriteGuest (toggleFavoriteGuest
            (⟨⟨none, [], ["m1"], ["m1"]⟩, false, none⟩ : GuestUIState) "m1") "m1")).auth.storage
          = (handleContinueAsGuest (toggleFavoriteGuest (toggleFavoriteGuest
              (⟨⟨none, [], ["m1"], ["m1"]⟩, false, none⟩ : GuestUIState) "m1") "m1")).auth.localFavorites)
    ∧ (toggleFavoriteGuest (toggleFavoriteGuest
        (⟨⟨none, [], ["m1"], ["m1"]⟩, false, none⟩ : GuestUIState) "m1") "m1").auth.storage
      = (toggleFavoriteGuest (toggleFavoriteGuest
          (⟨⟨none, [], ["m1"], ["m1"]⟩, false, none⟩ : GuestUIState) "m1") "m1").auth.localFavorites :=
  guest_toggle_roundtrip (⟨⟨none, [], ["m1"], ["m1"]⟩, false, none⟩ : GuestUIState) "m1" (by decide)

/-! ## Detail-cache lemmas -/

lemma cacheLookup_cons (entryId : String) (mv : Movie) (c : List (String × Movie))
    (movieId : String) :
    cacheLookup ((entryId, mv) :: c) movieId
      = if entryId = movieId then some mv else cacheLookup c movieId := by
  by_cases h : entryId = movieId <;> simp [cacheLookup, List.find?_cons, h]

/-- One `fetchMovieDetails` call never removes or overwrites an existing cache
entry: a cache hit leaves the cache alone, and a miss only prepends a key that
was absent. -/
lemma fetchMovieDetails_cache_preserves (c : List (String × Movie))
    (net : Option Movie) (otherId movieId : String) (m : Movie)
    (h : cacheLookup c movieId = some m) :
    cacheLookup (fetchMovieDetails c net otherId).cache movieId = some m := by
  cases hc : cacheLookup c otherId with
  | some _ => simpa [fetchMovieDetails, hc] using h
  | none =>
    cases net with
    | some movie =>
      have hne : otherId ≠ movieId := by
        intro he
        rw [he, h] at hc
        exact Option.noConfusion hc
      simp [fetchMovieDetails, hc, cacheLookup_cons, hne, h]
    | none => simpa [fetchMovieDetails, hc] using h

lemma cacheLookup_runDetailRequests (reqs : List (String × Option Movie)) :
    ∀ (c : List (String × Movie)) (movieId : String) (m : Movie),
      cacheLookup c movieId = some m →
      cacheLookup (runDetailRequests c reqs) movieId = some m := by
  induction reqs with
  | nil => intro c movieId m h; simpa [runDetailRequests] using h
  | cons r rs ih =>
    intro c movieId m h
    have hstep := fetchMovieDetails_cache_preserves c r.2 r.1 movieId m h
    simpa [runDetailRequests] using ih _ movieId m hstep

/-- A cache hit returns the cached record with zero network requests and an
unchanged cache. -/
lemma fetchMovieDetails_hit (c : List (String × Movie)) (net : Option Movie)
    (movieId : String) (m : Movie) (h : cacheLookup c movieId = some m) :
    fetchMovieDetails c net movieId
      = { result := some m, cache := c, networkRequests := 0 } := by
  simp [fetchMovieDetails, h]

/-- Claim C5: once a first successful detail fetch populates the cache for an
id, any later detail request for that id — after any interleaved sequence of
other detail requests — returns the identical cached record, issues no network
request, and leaves the cache exactly as it was (the entry is never evicted
nor overwritten). -/
theorem detail_cache_write_once (cache : List (String × Movie)) (movieId : String)
    (mv : Movie) (reqs : List (String × Option Movie)) (laterNet : Option Movie)
    (hmiss : cacheLookup cache movieId = none) :
    (fetchMovieDetails cache (some mv) movieId).result = some mv
    ∧ (fetchMovieDetails cache (some mv) movieId).networkRequests = 1
    ∧ cacheLookup
        (runDetailRequests (fetchMovieDetails cache (some mv) movieId).cache reqs)
        movieId = some mv
    ∧ fetchMovieDetails
        (runDetailRequests (fetchMovieDetails cache (some mv) movieId).cache reqs)
        laterNet movieId
      = { result := some mv,
          cache := runDetailRequests (fetchMovieDetails cache (some mv) movieId).cache reqs,
          networkRequests := 0 } := by
  have hcache1 : (fetchMovieDetails cache (some mv) movieId).cache
      = (movieId, mv) :: cache := by
    simp [fetchMovieDetails, hmiss]
  have hpop : cacheLookup (fetchMovieDetails cache (some mv) movieId).cache movieId
      = some mv := by
    rw [hcache1, cacheLookup_cons, if_pos rfl]
  have hkeep := cacheLookup_runDetailRequests reqs _ movieId mv hpop
  exact ⟨by simp [fetchMovieDetails, hmiss], by simp [fetchMovieDetails, hmiss],
    hkeep, fetchMovieDetails_hit _ laterNet movieId mv hkeep⟩

/-- Witness for C5: an empty cache, a successful fetch of `"m1"`, one
interleaved request for `"m2"`, then a second request for `"m1"`. -/
theorem detail_cache_write_once_witness :
    (fetchMovieDetails [] (some { id := "m1", title := "t1" }) "m1").result
        = some { id := "m1", title := "t1" }
    ∧ (fetchMovieDetails [] (some { id := "m1", title := "t1" }) "m1").networkRequests = 1
    ∧ cacheLookup
        (runDetailRequests (fetchMovieDetails [] (some { id := "m1", title := "t1" }) "m1").cache
          [("m2", some { id := "m2", title := "t2" })])
        "m1" = some { id := "m1", title := "t1" }
    ∧ fetchMovieDetails
        (runDetailRequests (fetchMovieDetails [] (some { id := "m1", title := "t1" }) "m1").cache
          [("m2", some { id := "m2", title := "t2" })])
        (some { id := "m1", title := "other" }) "m1"
      = { result := some { id := "m1", title := "t1" },
          cache := runDetailRequests
            (fetchMovieDetails [] (some { id := "m1", title := "t1" }) "m1").cache
            [("m2", some { id := "m2", title := "t2" })],
          networkRequests := 0 } :=
  detail_cache_write_once [] "m1" { id := "m1", title := "t1" }
    [("m2", some { id := "m2", title := "t2" })]
    (some { id := "m1", title := "other" }) (by decide)

/-! ## Poster-validator lemmas -/

lemma lookupAssoc_set_self (c : List (String × Bool)) (url : String) (b : Bool) :
    lookupAssoc (setAssoc c url b) url = some b := by
  simp [lookupAssoc, setAssoc, List.find?_cons]

/-- Counterexample to claim C3 as stated: two calls for the same URL made
concurrently — the second before the first resolves — issue TWO underlying
image-load attempts, and when the two racing loads settle differently (here
the first image fires `load`, the second fires `error`) the two callers
observe different resolved booleans.  `validatePosterImage` memoizes only
settled outcomes, not in-flight promises. -/
theorem poster_validator_concurrent_counterexample :
    (vrun initValidator
        [VEvent.call 0 "p.jpg", VEvent.call 1 "p.jpg",
         VEvent.resolve 0 LoadOutcome.onload, VEvent.resolve 1 LoadOutcome.onerror]).loads
      = ["p.jpg", "p.jpg"]
    ∧ ¬((vrun initValidator
        [VEvent.call 0 "p.jpg", VEvent.call 1 "p.jpg",
         VEvent.resolve 0 LoadOutcome.onload, VEvent.resolve 1 LoadOutcome.onerror]).loads.length ≤ 1)
    ∧ (vrun initValidator
        [VEvent.call 0 "p.jpg", VEvent.call 1 "p.jpg",
         VEvent.resolve 0 LoadOutcome.onload, VEvent.resolve 1 LoadOutcome.onerror]).results
      = [(0, true), (1, false)] := by
  decide

/-- Claim C3 (amended): a call for a URL present in the validation cache is
served from it, issuing no new image load and resolving with the currently
cached boolean.  Hence two sequential calls (the second after the first
resolves) issue at most one load; the second caller observes the same boolean
as the first when the first settled through the image's own `load`/`error`
event, whose handler clears the timeout so no late write can follow.  But
when the first call settled through the timeout, the image's late `error`
event can flip the cached value, so the second caller — still with no second
load issued — may observe a different boolean than the first (here `true`
then `false`).  Two calls made before either resolves each issue their own
load (see the counterexample). -/
theorem poster_validator_cached_short_circuit (st : ValidatorState)
    (id id0 id1 : Nat) (url u w : String) (b isLoad : Bool)
    (hcached : lookupAssoc st.cache url = some b) :
    vstep st (VEvent.call id url) = { st with results := st.results ++ [(id, b)] }
    ∧ (vstep st (VEvent.call id url)).loads = st.loads
    ∧ (vrun initValidator
        [VEvent.call id0 u,
         VEvent.resolve id0 (if isLoad then LoadOutcome.onload else LoadOutcome.onerror),
         VEvent.call id1 u]).loads = [u]
    ∧ (vrun initValidator
        [VEvent.call id0 u,
         VEvent.resolve id0 (if isLoad then LoadOutcome.onload else LoadOutcome.onerror),
         VEvent.call id1 u]).results = [(id0, isLoad), (id1, isLoad)]
    ∧ (vrun initValidator
        [VEvent.call id0 w, VEvent.resolve id0 LoadOutcome.timeout,
         VEvent.lateImage id0 false, VEvent.call id1 w]).loads = [w]
    ∧ (vrun initValidator
        [VEvent.call id0 w, VEvent.resolve id0 LoadOutcome.timeout,
         VEvent.lateImage id0 false, VEvent.call id1 w]).results
      = [(id0, true), (id1, false)] := by
  refine ⟨by simp [vstep, hcached], by simp [vstep, hcached], ?_, ?_, ?_, ?_⟩
  · cases isLoad <;>
      simp [vrun, vstep, initValidator, lookupAssoc, setAssoc, outcomeBool, List.find?_cons]
  · cases isLoad <;>
      simp [vrun, vstep, initValidator, lookupAssoc, setAssoc, outcomeBool, List.find?_cons]
  · simp [vrun, vstep, initValidator, lookupAssoc, setAssoc, outcomeBool, List.find?_cons]
  · simp [vrun, vstep, initValidator, lookupAssoc, setAssoc, outcomeBool, List.find?_cons]

/-- Witness for C3 (amended): the cache already holds `p.jpg ↦ true`; call 5
is served from it; the image-settled scenario runs ids 0, 1 on `q.png` with
an `onerror` settlement (both observe `false`); and the timeout-then-late-
error scenario runs ids 0, 1 on `r.webp` (observing `true` then `false` from
the single load). -/
theorem poster_validator_cached_short_circuit_witness :
    vstep (⟨[("p.jpg", true)], [], [], [], []⟩ : ValidatorState) (VEvent.call 5 "p.jpg")
        = { (⟨[("p.jpg", true)], [], [], [], []⟩ : ValidatorState) with results := [(5, true)] }
    ∧ (vstep (⟨[("p.jpg", true)], [], [], [], []⟩ : ValidatorState)
        (VEvent.call 5 "p.jpg")).loads = []
    ∧ (vrun initValidator
        [VEvent.call 0 "q.png",
         VEvent.resolve 0 (if (false : Bool) then LoadOutcome.onload else LoadOutcome.onerror),
         VEvent.call 1 "q.png"]).loads = ["q.png"]
    ∧ (vrun initValidator
        [VEvent.call 0 "q.png",
         VEvent.resolve 0 (if (false : Bool) then LoadOutcome.onload else LoadOutcome.onerror),
         VEvent.call 1 "q.png"]).results = [(0, false), (1, false)]
    ∧ (vrun initValidator
        [VEvent.call 0 "r.webp", VEvent.resolve 0 LoadOutcome.timeout,
         VEvent.lateImage 0 false, VEvent.call 1 "r.webp"]).loads = ["r.webp"]
    ∧ (vrun initValidator
        [VEvent.call 0 "r.webp", VEvent.resolve 0 LoadOutcome.timeout,
         VEvent.lateImage 0 false, VEvent.call 1 "r.webp"]).results
      = [(0, true), (1, false)] :=
  poster_validator_cached_short_circuit
    (⟨[("p.jpg", true)], [], [], [], []⟩ : ValidatorState)
    5 0 1 "p.jpg" "q.png" "r.webp" true false (by decide)

/-- Claim C4: the landing filter pass validates each poster with a 1.5s cap
(`validatePosterImage(url, 1500)`), and a load whose image fires neither
`load` nor `error` before that timeout settles via the timeout handler,
resolving `true` for its caller and recording `true` in the validation
cache. -/
theorem poster_timeout_optimistic (st : ValidatorState) (id : Nat) (url : String)
    (imgEvent : Option (Nat × Bool))
    (hpend : st.pending.find? (fun e => e.1 = id) = some (id, url))
    (hslow : ∀ t isLoad, imgEvent = some (t, isLoad) → landingPosterTimeoutMs ≤ t) :
    landingPosterTimeoutMs = 1500
    ∧ settleOutcome imgEvent landingPosterTimeoutMs = LoadOutcome.timeout
    ∧ (vstep st (VEvent.resolve id (settleOutcome imgEvent landingPosterTimeoutMs))).results
        = st.results ++ [(id, true)]
    ∧ lookupAssoc
        (vstep st (VEvent.resolve id (settleOutcome imgEvent landingPosterTimeoutMs))).cache
        url
      = some true := by
  have hout : settleOutcome imgEvent landingPosterTimeoutMs = LoadOutcome.timeout := by
    cases imgEvent with
    | none => rfl
    | some p =>
      obtain ⟨t, isLoad⟩ := p
      have hle : landingPosterTimeoutMs ≤ t := hslow t isLoad rfl
      have hnlt : ¬ t < landingPosterTimeoutMs := by omega
      simp [settleOutcome, hnlt]
  rw [hout]
  refine ⟨rfl, rfl, ?_, ?_⟩
  · simp [vstep, hpend, outcomeBool]
  · simp [vstep, hpend, outcomeBool, lookupAssoc_set_self]

/-- Witness for C4: one pending call (id 0) for `slow.jpg` whose image never
fires before the deadline (`imgEvent = none`). -/
theorem poster_timeout_optimistic_witness :
    landingPosterTimeoutMs = 1500
    ∧ settleOutcome none landingPosterTimeoutMs = LoadOutcome.timeout
    ∧ (vstep (⟨[], [(0, "slow.jpg")], [], ["slow.jpg"], []⟩ : ValidatorState)
        (VEvent.resolve 0 (settleOutcome none landingPosterTimeoutMs))).results
      = [] ++ [(0, true)]
    ∧ lookupAssoc
        (vstep (⟨[], [(0, "slow.jpg")], [], ["slow.jpg"], []⟩ : ValidatorState)
          (VEvent.resolve 0 (settleOutcome none landingPosterTimeoutMs))).cache
        "slow.jpg"
      = some true :=
  poster_timeout_optimistic (⟨[], [(0, "slow.jpg")], [], ["slow.jpg"], []⟩ : ValidatorState)
    0 "slow.jpg" none (by decide)
    (fun t isLoad h => Option.noConfusion h)

/-! ## Reconciliation lemmas -/

/-- A cloud add never touches the local favorites or their storage. -/
lemma addToCloudFavorites_frame (st : AuthState) (r : Option Favorite) :
    (addToCloudFavorites st r).localFavorites = st.localFavorites
    ∧ (addToCloudFavorites st r).storage = st.storage := by
  cases hu : st.user <;> cases r <;> simp [addToCloudFavorites, hu]

/-- The sync loop issues exactly one `cloudAdd` per id present in the lookup,
in sequence order, and never touches local favorites or storage. -/
lemma syncStep_foldl (movieData : String → Option MovieData)
    (addResult : String → Option Favorite) (ids : List String) :
    ∀ (st0 : AuthState) (ops0 : List SyncOp),
      (ids.foldl (syncStep movieData addResult) (st0, ops0)).2
        = ops0 ++ (ids.filter (fun id => (movieData id).isSome)).map SyncOp.cloudAdd
      ∧ (ids.foldl (syncStep movieData addResult) (st0, ops0)).1.localFavorites
          = st0.localFavorites
      ∧ (ids.foldl (syncStep movieData addResult) (st0, ops0)).1.storage = st0.storage := by
  induction ids with
  | nil => intro st0 ops0; simp
  | cons id rest ih =>
    intro st0 ops0
    cases hmd : movieData id with
    | some d =>
      have hstep : syncStep movieData addResult (st0, ops0) id
          = (addToCloudFavorites st0 (addResult id), ops0 ++ [SyncOp.cloudAdd id]) := by
        simp [syncStep, hmd]
      have hrec := ih (addToCloudFavorites st0 (addResult id)) (ops0 ++ [SyncOp.cloudAdd id])
      have hframe := addToCloudFavorites_frame st0 (addResult id)
      refine ⟨?_, ?_, ?_⟩
      · rw [List.foldl_cons, hstep, hrec.1]
        simp [hmd]
      · rw [List.foldl_cons, hstep, hrec.2.1, hframe.1]
      · rw [List.foldl_cons, hstep, hrec.2.2, hframe.2]
    | none =>
      have hstep : syncStep movieData addResult (st0, ops0) id = (st0, ops0) := by
        simp [syncStep, hmd]
      have hrec := ih st0 ops0
      refine ⟨?_, ?_, ?_⟩
      · rw [List.foldl_cons, hstep, hrec.1]
        simp [hmd]
      · rw [List.foldl_cons, hstep, hrec.2.1]
      · rw [List.foldl_cons, hstep, hrec.2.2]

/-- Claim C2: on a Guest→Authenticated reconciliation with a non-empty local
set, the local set is cleared (memory and storage) before any cloud write —
the operation trace starts with the clear — then exactly one sequential cloud
add is issued for each local id that is neither among the cloud set's movie
ids nor missing from the movie-data lookup; ids already in the cloud or
absent from the lookup get no write; and the local set ends empty for every
possible add outcome. -/
theorem sync_local_to_cloud_trace (st : AuthState) (u probeId : String)
    (movieData : String → Option MovieData) (addResult : String → Option Favorite)
    (hu : st.user = some u) (hne : st.localFavorites ≠ []) :
    (syncLocalToCloud st movieData addResult).2
      = SyncOp.clearLocal ::
          (((st.localFavorites.filter
              (fun id => decide (id ∉ st.cloudFavorites.map (fun f => f.movieId)))).filter
            (fun id => (movieData id).isSome)).map SyncOp.cloudAdd)
    ∧ (syncLocalToCloud st movieData addResult).1.localFavorites = []
    ∧ (syncLocalToCloud st movieData addResult).1.storage = []
    ∧ (probeId ∈ st.cloudFavorites.map (fun f => f.movieId) →
        SyncOp.cloudAdd probeId ∉ (syncLocalToCloud st movieData addResult).2)
    ∧ (movieData probeId = none →
        SyncOp.cloudAdd probeId ∉ (syncLocalToCloud st movieData addResult).2)
    ∧ (st.localFavorites.Nodup → (syncLocalToCloud st movieData addResult).2.Nodup) := by
  have hmain : syncLocalToCloud st movieData addResult
      = (st.localFavorites.filter
          (fun id => decide (id ∉ st.cloudFavorites.map (fun f => f.movieId)))).foldl
            (syncStep movieData addResult)
            ({ st with localFavorites := [], storage := [] }, [SyncOp.clearLocal]) := by
    simp [syncLocalToCloud, hu, hne]
  have hfold := syncStep_foldl movieData addResult
    (st.localFavorites.filter
      (fun id => decide (id ∉ st.cloudFavorites.map (fun f => f.movieId))))
    ({ st with localFavorites := [], storage := [] }) [SyncOp.clearLocal]
  have hops : (syncLocalToCloud st movieData addResult).2
      = SyncOp.clearLocal ::
          (((st.localFavorites.filter
              (fun id => decide (id ∉ st.cloudFavorites.map (fun f => f.movieId)))).filter
            (fun id => (movieData id).isSome)).map SyncOp.cloudAdd) := by
    rw [hmain, hfold.1]
    rfl
  refine ⟨hops, ?_, ?_, ?_, ?_, ?_⟩
  · rw [hmain, hfold.2.1]
  · rw [hmain, hfold.2.2]
  · intro hin hmem
    rw [hops] at hmem
    rcases List.mem_cons.mp hmem with hbad | hmap
    · exact SyncOp.noConfusion hbad
    · rcases List.mem_map.mp hmap with ⟨a, ha, haeq⟩
      have haId : a = probeId := by injection haeq
      subst haId
      have hdec := (List.mem_filter.mp (List.mem_filter.mp ha).1).2
      exact (of_decide_eq_true hdec) hin
  · intro hnone hmem
    rw [hops] at hmem
    rcases List.mem_cons.mp hmem with hbad | hmap
    · exact SyncOp.noConfusion hbad
    · rcases List.mem_map.mp hmap with ⟨a, ha, haeq⟩
      have haId : a = probeId := by injection haeq
      subst haId
      have := (List.mem_filter.mp ha).2
      rw [hnone] at this
      simp at this
  · intro hnd
    rw [hops]
    refine List.Nodup.cons ?_ ?_
    · intro hmem
      rcases List.mem_map.mp hmem with ⟨a, _, haeq⟩
      exact SyncOp.noConfusion haeq
    · exact List.Nodup.map (fun a b h => by injection h) ((hnd.filter _).filter _)

/-- Witness for C2: user `"u1"` logs in with local favorites `["A", "B"]`,
cloud already holding `B`; the lookup knows `A` and `B`; the cloud add for `A`
fails.  Exactly one add (for `A`) is traced after the clear, and the local set
ends empty. -/
theorem sync_local_to_cloud_trace_witness :
    (syncLocalToCloud
        (⟨some "u1", [⟨"d1", "u1", "B", "tB", none, none⟩], ["A", "B"], ["A", "B"]⟩ : AuthState)
        (fun id => if id = "A" ∨ id = "B" then some ⟨"t", none, none⟩ else none)
        (fun _ => none)).2
      = SyncOp.clearLocal ::
          ((((⟨some "u1", [⟨"d1", "u1", "B", "tB", none, none⟩], ["A", "B"], ["A", "B"]⟩ : AuthState).localFavorites.filter
              (fun id => decide (id ∉ (⟨some "u1", [⟨"d1", "u1", "B", "tB", none, none⟩], ["A", "B"], ["A", "B"]⟩ : AuthState).cloudFavorites.map (fun f => f.movieId)))).filter
            (fun id => ((fun id => if id = "A" ∨ id = "B" then some (⟨"t", none, none⟩ : MovieData) else none) id).isSome)).map SyncOp.cloudAdd)
    ∧ (syncLocalToCloud
        (⟨some "u1", [⟨"d1", "u1", "B", "tB", none, none⟩], ["A", "B"], ["A", "B"]⟩ : AuthState)
        (fun id => if id = "A" ∨ id = "B" then some ⟨"t", none, none⟩ else none)
        (fun _ => none)).1.localFavorites = []
    ∧ (syncLocalToCloud
        (⟨some "u1", [⟨"d1", "u1", "B", "tB", none, none⟩], ["A", "B"], ["A", "B"]⟩ : AuthState)
        (fun id => if id = "A" ∨ id = "B" then some ⟨"t", none, none⟩ else none)
        (fun _ => none)).1.storage = []
    ∧ ("B" ∈ (⟨some "u1", [⟨"d1", "u1", "B", "tB", none, none⟩], ["A", "B"], ["A", "B"]⟩ : AuthState).cloudFavorites.map (fun f => f.movieId) →
        SyncOp.cloudAdd "B" ∉ (syncLocalToCloud
          (⟨some "u1", [⟨"d1", "u1", "B", "tB", none, none⟩], ["A", "B"], ["A", "B"]⟩ : AuthState)
          (fun id => if id = "A" ∨ id = "B" then some ⟨"t", none, none⟩ else none)
          (fun _ => none)).2)
    ∧ ((fun id => if id = "A" ∨ id = "B" then some (⟨"t", none, none⟩ : MovieData) else none) "B" = none →
        SyncOp.cloudAdd "B" ∉ (syncLocalToCloud
          (⟨some "u1", [⟨"d1", "u1", "B", "tB", none, none⟩], ["A", "B"], ["A", "B"]⟩ : AuthState)
          (fun id => if id = "A" ∨ id = "B" then some ⟨"t", none, none⟩ else none)
          (fun _ => none)).2)
    ∧ ((⟨some "u1", [⟨"d1", "u1", "B", "tB", none, none⟩], ["A", "B"], ["A", "B"]⟩ : AuthState).localFavorites.Nodup →
        (syncLocalToCloud
          (⟨some "u1", [⟨"d1", "u1", "B", "tB", none, none⟩], ["A", "B"], ["A", "B"]⟩ : AuthState)
          (fun id => if id = "A" ∨ id = "B" then some ⟨"t", none, none⟩ else none)
          (fun _ => none)).2.Nodup) :=
  sync_local_to_cloud_trace
    (⟨some "u1", [⟨"d1", "u1", "B", "tB", none, none⟩], ["A", "B"], ["A", "B"]⟩ : AuthState)
    "u1" "B"
    (fun id => if id = "A" ∨ id = "B" then some ⟨"t", none, none⟩ else none)
    (fun _ => none) rfl (by decide)

/-! ## Pagination lemmas -/

lemma jsOrNat_truthy (a : Option Nat) (b c : Nat) (h : truthyNat a = true) :
    jsOrNat a b = jsOrNat a c := by
  cases a with
  | none => simp [truthyNat] at h
  | some n =>
    have hn : n ≠ 0 := by simpa [truthyNat] using h
    simp [jsOrNat, hn]

lemma jsOrNat_falsy (a : Option Nat) (b : Nat) (h : truthyNat a = false) :
    jsOrNat a b = b := by
  cases a with
  | none => rfl
  | some n =>
    have hn : n = 0 := by simpa [truthyNat] using h
    simp [jsOrNat, hn]

lemma jsOrNat_some_zero (n : Nat) : jsOrNat (some n) 0 = n := by
  cases n <;> simp [jsOrNat]

/-- A list response whose declared totals are all absent, with `totalPages = 2`
and five summaries. -/
def inferredResponseA : MoviesApiResponse :=
  { data := [⟨"1", "a"⟩, ⟨"2", "b"⟩, ⟨"3", "c"⟩, ⟨"4", "d"⟩, ⟨"5", "e"⟩],
    totalPages := some 2, pages := none,
    total := none, totalResults := none, totalCount := none, count := none }

/-- The same response with only three summaries. -/
def inferredResponseB : MoviesApiResponse :=
  { inferredResponseA with data := [⟨"1", "a"⟩, ⟨"2", "b"⟩, ⟨"3", "c"⟩] }

/-- Counterexample to claim C6 as stated: two responses that agree on every
declared total/pages field but differ in the returned data array's length get
different `totalResults` (10 = 5·2 versus 6 = 3·2) — the fallback
`data.data?.length * (data.totalPages || 1)` infers the total from the data
length, contradicting "never infers these values". -/
theorem pagination_total_inferred_counterexample :
    inferredResponseA.total = inferredResponseB.total
    ∧ inferredResponseA.totalResults = inferredResponseB.totalResults
    ∧ inferredResponseA.totalCount = inferredResponseB.totalCount
    ∧ inferredResponseA.count = inferredResponseB.count
    ∧ inferredResponseA.totalPages = inferredResponseB.totalPages
    ∧ inferredResponseA.pages = inferredResponseB.pages
    ∧ inferredResponseA.data.length = 5
    ∧ inferredResponseB.data.length = 3
    ∧ paginationTotalResults inferredResponseA = 10
    ∧ paginationTotalResults inferredResponseB = 6
    ∧ paginationTotalResults inferredResponseA ≠ paginationTotalResults inferredResponseB := by
  decide

/-- Claim C6 (amended): `totalPages` is set only from the response's declared
`totalPages`/`pages` fields (default 1) and never depends on the data array;
`totalResults` is set from the first truthy declared total field when one
exists — and is then also independent of the data array — but when every
declared total field is absent or zero it is inferred as
`data.length * (totalPages || 1)`. -/
theorem pagination_totals_amended (r : MoviesApiResponse) (d : List MovieSummary) :
    paginationTotalPages { r with data := d } = paginationTotalPages r
    ∧ ((truthyNat r.total || truthyNat r.totalResults
          || truthyNat r.totalCount || truthyNat r.count) = true →
        paginationTotalResults { r with data := d } = paginationTotalResults r)
    ∧ ((truthyNat r.total || truthyNat r.totalResults
          || truthyNat r.totalCount || truthyNat r.count) = false →
        paginationTotalResults r = r.data.length * jsOrNat r.totalPages 1) := by
  refine ⟨rfl, ?_, ?_⟩
  · intro h
    simp only [paginationTotalResults]
    cases h1 : truthyNat r.total with
    | true => exact jsOrNat_truthy _ _ _ h1
    | false =>
      rw [jsOrNat_falsy _ _ h1, jsOrNat_falsy _ _ h1]
      cases h2 : truthyNat r.totalResults with
      | true => exact jsOrNat_truthy _ _ _ h2
      | false =>
        rw [jsOrNat_falsy _ _ h2, jsOrNat_falsy _ _ h2]
        cases h3 : truthyNat r.totalCount with
        | true => exact jsOrNat_truthy _ _ _ h3
        | false =>
          rw [jsOrNat_falsy _ _ h3, jsOrNat_falsy _ _ h3]
          cases h4 : truthyNat r.count with
          | true => exact jsOrNat_truthy _ _ _ h4
          | false =>
            rw [h1, h2, h3, h4] at h
            simp at h
  · intro h
    have h1 : truthyNat r.total = false := by
      cases hx : truthyNat r.total <;> simp [hx] at h ⊢
    have h2 : truthyNat r.totalResults = false := by
      cases hx : truthyNat r.totalResults <;> simp [hx] at h ⊢
    have h3 : truthyNat r.totalCount = false := by
      cases hx : truthyNat r.totalCount <;> simp [hx] at h ⊢
    have h4 : truthyNat r.count = false := by
      cases hx : truthyNat r.count <;> simp [hx] at h ⊢
    simp only [paginationTotalResults]
    rw [jsOrNat_falsy _ _ h1, jsOrNat_falsy _ _ h2, jsOrNat_falsy _ _ h3,
      jsOrNat_falsy _ _ h4, jsOrNat_some_zero]

/-- Witness for C6 (amended) at the five-summary response with no declared
totals, swapping in an empty data array. -/
theorem pagination_totals_amended_witness :
    paginationTotalPages { inferredResponseA with data := [] }
        = paginationTotalPages inferredResponseA
    ∧ ((truthyNat inferredResponseA.total || truthyNat inferredResponseA.totalResults
          || truthyNat inferredResponseA.totalCount || truthyNat inferredResponseA.count) = true →
        paginationTotalResults { inferredResponseA with data := [] }
          = paginationTotalResults inferredResponseA)
    ∧ ((truthyNat inferredResponseA.total || truthyNat inferredResponseA.totalResults
          || truthyNat inferredResponseA.totalCount || truthyNat inferredResponseA.count) = false →
        paginationTotalResults inferredResponseA
          = inferredResponseA.data.length * jsOrNat inferredResponseA.totalPages 1) :=
  pagination_totals_amended inferredResponseA []

/-! ## Debounce lemmas -/

/-- Applying a chain of genuinely-changing inputs leaves exactly one pending
timer, carrying the last input, with no fetch issued yet. -/
lemma applySearchChanges_fresh (qs : List String) :
    ∀ (st : DebounceState) (qFinal : String),
      changesAllFresh st.prevSearch qs = true → qs.getLast? = some qFinal →
      applySearchChanges st qs
        = { prevSearch := qFinal, pendingFetch := some qFinal,
            fetchCalls := st.fetchCalls } := by
  induction qs with
  | nil => intro st qFinal _ hlast; simp at hlast
  | cons q rest ih =>
    intro st qFinal hfresh hlast
    have hparts := by simpa [changesAllFresh] using hfresh
    obtain ⟨hq, hfresh'⟩ : q ≠ st.prevSearch ∧ changesAllFresh q rest = true := hparts
    have hstep : searchInputChange st q
        = { prevSearch := q, pendingFetch := some q, fetchCalls := st.fetchCalls } := by
      simp [searchInputChange, hq]
    cases rest with
    | nil =>
      have hqf : qFinal = q := by simpa using hlast.symm
      subst hqf
      simp [applySearchChanges, hstep]
    | cons r rs =>
      have hlast' : (r :: rs).getLast? = some qFinal := by
        simpa [List.getLast?_cons_cons] using hlast
      have := ih { prevSearch := q, pendingFetch := some q, fetchCalls := st.fetchCalls }
        qFinal hfresh' hlast'
      simpa [applySearchChanges, hstep] using this

/-- Claim C8: a burst of search-input changes inside the debounce window —
each change differing from the previous value, each cancelling and restarting
the pending 300ms timer — issues no fetch until the timer finally fires, and
then exactly one fetch, carrying the final settled input. -/
theorem debounce_single_fetch (st : DebounceState) (qs : List String) (qFinal : String)
    (hfresh : changesAllFresh st.prevSearch qs = true)
    (hlast : qs.getLast? = some qFinal) :
    (applySearchChanges st qs).fetchCalls = st.fetchCalls
    ∧ debounceTimerFire (applySearchChanges st qs)
        = { prevSearch := qFinal, pendingFetch := none,
            fetchCalls := st.fetchCalls ++ [qFinal] }
    ∧ (debounceTimerFire (applySearchChanges st qs)).fetchCalls.length
        = st.fetchCalls.length + 1 := by
  have happ := applySearchChanges_fresh qs st qFinal hfresh hlast
  refine ⟨by rw [happ], ?_, ?_⟩
  · rw [happ]
    rfl
  · rw [happ]
    simp [debounceTimerFire]

/-- Witness for C8: from the initial empty search, typing `"bat"`, `"batm"`,
`"batman"` within the window and letting the timer fire issues exactly the
one fetch `search="batman"`. -/
theorem debounce_single_fetch_witness :
    (applySearchChanges (⟨"", none, []⟩ : DebounceState) ["bat", "batm", "batman"]).fetchCalls
        = (⟨"", none, []⟩ : DebounceState).fetchCalls
    ∧ debounceTimerFire
        (applySearchChanges (⟨"", none, []⟩ : DebounceState) ["bat", "batm", "batman"])
      = { prevSearch := "batman", pendingFetch := none,
          fetchCalls := (⟨"", none, []⟩ : DebounceState).fetchCalls ++ ["batman"] }
    ∧ (debounceTimerFire
        (applySearchChanges (⟨"", none, []⟩ : DebounceState) ["bat", "batm", "batman"])).fetchCalls.length
      = (⟨"", none, []⟩ : DebounceState).fetchCalls.length + 1 :=
  debounce_single_fetch (⟨"", none, []⟩ : DebounceState) ["bat", "batm", "batman"]
    "batman" (by decide) (by decide)
